import Mathlib

/-! Verification of `main.cpp`.

The program is a single function

    int main(int argc, char* argv[]) {
      std::cout << "Hello, World!" << std::endl;   // line 14
      return 0;                                    // line 18
    }

The embedding threads an explicit world state through the statements of `main`.
The stream operations that line 14 calls (`operator<<` on a C string, and the
manipulator `std::endl`, which is `put` of a newline followed by `flush`) are the
C++ standard library's; they are modelled for a standard output that accepts
writes, with a stream buffer in front of the destination of each stream.
-/

namespace HelloWorld

/-! ## Data model -/

/-- The standard stream objects declared by `<iostream>` (line 4 of the source):
the output stream and the error stream. -/
inductive OStream where
  | cout
  | cerr
  deriving DecidableEq, Repr

/-- The calls made on a stream object, in the order the program makes them.
This is ghost state: it records which library operation ran, not what it did. -/
inductive Event where
  | insert (os : OStream) (s : List Char)
  | put (os : OStream) (c : Char)
  | flush (os : OStream)
  deriving DecidableEq, Repr

/-- Everything the process can observe or change.  `stdout`/`stderr` are the
characters already delivered to the destinations of the two streams,
`coutBuf`/`cerrBuf` the characters still pending in the stream buffers, `log`
the stream calls made so far, `files` the contents of the files of the host by
path (the persistent state), `network` the messages sent on the network so far,
and `rest` every other part of the world, of an arbitrary type. -/
structure World (ρ : Type) where
  stdout : List Char
  stderr : List Char
  coutBuf : List Char
  cerrBuf : List Char
  log : List Event
  files : List (String × List Char)
  network : List (List Char)
  rest : ρ
  deriving DecidableEq, Repr

/-- The world at process start: nothing written, nothing pending, no call made,
no file on the host, nothing sent. -/
def World.initial {ρ : Type} (r : ρ) : World ρ :=
  { stdout := [], stderr := [], coutBuf := [], cerrBuf := [], log := [],
    files := [], network := [], rest := r }

/-! ## Stream operations used by line 14 -/

/-- Append characters to the buffer of a stream. -/
def World.write {ρ : Type} (os : OStream) (cs : List Char) (w : World ρ) : World ρ :=
  match os with
  | .cout => { w with coutBuf := w.coutBuf ++ cs }
  | .cerr => { w with cerrBuf := w.cerrBuf ++ cs }

/-- Record a stream call in the log. -/
def World.record {ρ : Type} (e : Event) (w : World ρ) : World ρ :=
  { w with log := w.log ++ [e] }

/-- The call `os << s` for a C string `s`: inserts the characters of `s`. -/
def insertCStr {ρ : Type} (os : OStream) (s : List Char) (w : World ρ) : World ρ :=
  (w.write os s).record (.insert os s)

/-- The call `os.put(c)`: inserts the single character `c`. -/
def put {ρ : Type} (os : OStream) (c : Char) (w : World ρ) : World ρ :=
  (w.write os [c]).record (.put os c)

/-- The call `os.flush()`: delivers the pending characters to the destination of
the stream and empties the buffer. -/
def flush {ρ : Type} (os : OStream) (w : World ρ) : World ρ :=
  World.record (.flush os)
    (match os with
     | .cout => { w with stdout := w.stdout ++ w.coutBuf, coutBuf := [] }
     | .cerr => { w with stderr := w.stderr ++ w.cerrBuf, cerrBuf := [] })

/-- The manipulator `std::endl`, as in `os << std::endl`: puts a newline, then
flushes. -/
def endl {ρ : Type} (os : OStream) (w : World ρ) : World ρ :=
  flush os (put os '\n' w)

/-! ## The program -/

/-- The string literal of line 14. -/
def greeting : List Char := "Hello, World!".toList

/-- The function `main` of `main.cpp` (lines 11-19): line 14 inserts the literal
into `std::cout` and then applies `std::endl`; line 18 returns 0.  Neither
parameter is read. -/
def main {ρ : Type} (_argc : Int) (_argv : List String) (w : World ρ) : Int × World ρ :=
  let w1 := endl .cout (insertCStr .cout greeting w)
  (0, w1)

/-! ## Statement-level execution -/

/-- Program points of `main`: before the statement of line 14, before the
`return` of line 18, and after the return, carrying the exit status. -/
inductive Pc where
  | line14
  | line18
  | exited (status : Int)
  deriving DecidableEq, Repr

/-- A configuration of the running program: program point, the two parameters of
`main`, and the world. -/
structure Config (ρ : Type) where
  pc : Pc
  argc : Int
  argv : List String
  world : World ρ
  deriving DecidableEq, Repr

/-- Entry of `main`. -/
def start {ρ : Type} (argc : Int) (argv : List String) (w : World ρ) : Config ρ :=
  { pc := .line14, argc := argc, argv := argv, world := w }

/-- Execute one statement. -/
def step {ρ : Type} (c : Config ρ) : Config ρ :=
  match c.pc with
  | .line14 => { c with pc := .line18, world := endl .cout (insertCStr .cout greeting c.world) }
  | .line18 => { c with pc := .exited 0 }
  | .exited _ => c

/-- Run for at most `fuel` statements; the result is the exit status and final
world when the program has returned within the budget. -/
def exec {ρ : Type} : Nat → Config ρ → Option (Int × World ρ)
  | 0, c =>
    match c.pc with
    | .exited s => some (s, c.world)
    | _ => none
  | fuel + 1, c =>
    match c.pc with
    | .exited s => some (s, c.world)
    | _ => exec fuel (step c)

/-! ## Sequences of invocations -/

/-- Run `main` once for each argument vector of the list, in order, each
invocation starting in the world the previous one left.  The result is the list
of exit statuses and the final world. -/
def runSeq {ρ : Type} : List (Int × List String) → World ρ → List Int × World ρ
  | [], w => ([], w)
  | (argc, argv) :: invs, w =>
    let r := main argc argv w
    let rs := runSeq invs r.2
    (r.1 :: rs.1, rs.2)

/-! ## Observations on the log -/

/-- Whether a call is made on the given stream. -/
def Event.onStream (os : OStream) : Event → Bool
  | .insert o _ => o == os
  | .put o _ => o == os
  | .flush o => o == os

/-- The line the program prints: the greeting and one newline. -/
def greetingLine : List Char := "Hello, World!\n".toList

/-! ## Basic facts -/

theorem main_eq {ρ : Type} (argc : Int) (argv : List String) (w : World ρ) :
    main argc argv w =
      (0, { w with
            stdout := w.stdout ++ (w.coutBuf ++ greetingLine)
            coutBuf := []
            log := w.log ++ [.insert .cout greeting, .put .cout '\n', .flush .cout] }) := by
  simp [main, endl, flush, put, insertCStr, World.write, World.record, greeting, greetingLine]

theorem runSeq_append {ρ : Type} (a b : List (Int × List String)) (w : World ρ) :
    runSeq (a ++ b) w =
      ((runSeq a w).1 ++ (runSeq b (runSeq a w).2).1, (runSeq b (runSeq a w).2).2) := by
  induction a generalizing w with
  | nil => simp [runSeq]
  | cons inv a ih =>
    obtain ⟨argc, argv⟩ := inv
    simp [runSeq, ih]

theorem runSeq_spec {ρ : Type} (invs : List (Int × List String)) (w : World ρ)
    (hbuf : w.coutBuf = []) :
    (runSeq invs w).1 = List.replicate invs.length 0
      ∧ (runSeq invs w).2.stdout = w.stdout ++ (List.replicate invs.length greetingLine).flatten
      ∧ (runSeq invs w).2.coutBuf = []
      ∧ (runSeq invs w).2.stderr = w.stderr
      ∧ (runSeq invs w).2.cerrBuf = w.cerrBuf
      ∧ (runSeq invs w).2.rest = w.rest := by
  induction invs generalizing w with
  | nil => simp [runSeq, hbuf]
  | cons inv invs ih =>
    obtain ⟨argc, argv⟩ := inv
    obtain ⟨h1, h2, h3, h4, h5, h6⟩ := ih (main argc argv w).2 (by rw [main_eq])
    simp only [runSeq, List.length_cons, List.replicate_succ, List.flatten_cons]
    refine ⟨?_, ?_, h3, ?_, ?_, ?_⟩
    · rw [h1, main_eq]
    · rw [h2, main_eq, hbuf]; simp
    · rw [h4, main_eq]
    · rw [h5, main_eq]
    · rw [h6, main_eq]

/-! ## Output of one invocation -/

/-- C1: an invocation of `main` with no command-line arguments (argument count 1,
the argument list holding only the program name), started with nothing on
standard output and nothing pending in the buffer of `std::cout`, leaves on
standard output exactly the 14 bytes of `Hello, World!` followed by one newline:
the 13 characters of the greeting, then a single line terminator, which is the
last byte and the only newline, and nothing remains pending. -/
theorem C1_no_args_output {ρ : Type} (prog : String) (w : World ρ)
    (hout : w.stdout = []) (hbuf : w.coutBuf = []) :
    (main 1 [prog] w).2.stdout = greetingLine
      ∧ (main 1 [prog] w).2.stdout = greeting ++ ['\n']
      ∧ (main 1 [prog] w).2.stdout.map Char.toNat
          = [72, 101, 108, 108, 111, 44, 32, 87, 111, 114, 108, 100, 33, 10]
      ∧ (main 1 [prog] w).2.stdout.length = 14
      ∧ greeting.length = 13
      ∧ (main 1 [prog] w).2.stdout.count '\n' = 1
      ∧ (main 1 [prog] w).2.stdout.getLast? = some '\n'
      ∧ (main 1 [prog] w).2.coutBuf = [] := by
  have h : (main 1 [prog] w).2.stdout = greetingLine := by
    rw [main_eq, hout, hbuf]; rfl
  rw [h, main_eq]
  refine ⟨rfl, by decide, by decide, by decide, by decide, by decide, by decide, rfl⟩

theorem C1_no_args_output_witness :
    (World.initial ()).stdout = [] ∧ (World.initial ()).coutBuf = []
      ∧ (main 1 ["hello"] (World.initial ())).2.stdout = greetingLine
      ∧ (main 1 ["hello"] (World.initial ())).2.stdout.length = 14 :=
  ⟨rfl, rfl, (C1_no_args_output "hello" (World.initial ()) rfl rfl).1,
    (C1_no_args_output "hello" (World.initial ()) rfl rfl).2.2.2.1⟩

/-- C2: for every argument count, every argument list and every world, `main`
returns 0. -/
theorem C2_exit_status_zero {ρ : Type} (argc : Int) (argv : List String) (w : World ρ) :
    (main argc argv w).1 = 0 := by
  rw [main_eq]

/-- C3: for every two argument counts and argument lists, `main` run from the same
world yields the same exit status and the same final world, hence the same
standard output: the result does not depend on `argc` or `argv`. -/
theorem C3_arguments_ignored {ρ : Type} (argc1 argc2 : Int) (argv1 argv2 : List String)
    (w : World ρ) :
    main argc1 argv1 w = main argc2 argv2 w
      ∧ (main argc1 argv1 w).1 = (main argc2 argv2 w).1
      ∧ (main argc1 argv1 w).2.stdout = (main argc2 argv2 w).2.stdout := by
  rw [main_eq argc1 argv1 w, main_eq argc2 argv2 w]
  exact ⟨rfl, rfl, rfl⟩

/-- C4: for every invocation of `main`, standard error is left unchanged: the
characters delivered to it and the characters pending in the buffer of
`std::cerr` are the same before and after, and none of the stream calls that
`main` makes is a call on `std::cerr`. -/
theorem C4_stderr_unchanged {ρ : Type} (argc : Int) (argv : List String) (w : World ρ) :
    (main argc argv w).2.stderr = w.stderr
      ∧ (main argc argv w).2.cerrBuf = w.cerrBuf
      ∧ ((main argc argv w).2.log.drop w.log.length).filter (Event.onStream .cerr) = [] := by
  rw [main_eq]
  refine ⟨rfl, rfl, ?_⟩
  simp [Event.onStream]

/-! ## Stream calls made by one invocation -/

/-- C6: for every argument count, argument list and world, `main` terminates:
the embedding is a total function, and run statement by statement from its entry
it reaches the return after exactly two statements whatever the input; a budget
of two or more statements yields the result of `main`, a budget of fewer than
two does not reach the return. -/
theorem C6_terminates_in_two_steps {ρ : Type} (argc : Int) (argv : List String)
    (w : World ρ) (k : Nat) :
    exec (2 + k) (start argc argv w) = some (main argc argv w)
      ∧ exec 1 (start argc argv w) = none
      ∧ exec 0 (start argc argv w) = none
      ∧ (step (step (start argc argv w))).pc = .exited 0
      ∧ (step (start argc argv w)).pc = .line18 := by
  refine ⟨?_, rfl, rfl, rfl, rfl⟩
  rw [show 2 + k = (k + 1) + 1 by omega]
  cases k <;> rfl

/-! ## Repeated invocations -/

/-- C7: for every sequence of invocations run one after the other from a world
with empty standard output and nothing pending, every exit status is 0, the
accumulated standard output is the greeting line repeated once per invocation,
and one more invocation after any number of them returns 0 and appends exactly
the greeting line; the rest of the world and standard error are as at the
start. -/
theorem C7_repeated_invocations {ρ : Type} (invs : List (Int × List String))
    (argc : Int) (argv : List String) (w : World ρ)
    (hout : w.stdout = []) (hbuf : w.coutBuf = []) :
    (runSeq invs w).1 = List.replicate invs.length 0
      ∧ (runSeq invs w).2.stdout = (List.replicate invs.length greetingLine).flatten
      ∧ (main argc argv (runSeq invs w).2).1 = 0
      ∧ (main argc argv (runSeq invs w).2).2.stdout = (runSeq invs w).2.stdout ++ greetingLine
      ∧ (runSeq (invs ++ [(argc, argv)]) w).2.stdout
          = (runSeq invs w).2.stdout ++ greetingLine
      ∧ (runSeq invs w).2.rest = w.rest
      ∧ (runSeq invs w).2.stderr = w.stderr := by
  obtain ⟨h1, h2, h3, h4, _, h6⟩ := runSeq_spec invs w hbuf
  have hm : (main argc argv (runSeq invs w).2).2.stdout
      = (runSeq invs w).2.stdout ++ greetingLine := by
    rw [main_eq, h3]; rfl
  refine ⟨h1, ?_, ?_, hm, ?_, h6, h4⟩
  · rw [h2, hout]; rfl
  · rw [main_eq]
  · rw [runSeq_append]
    simp only [runSeq]
    exact hm

theorem C7_repeated_invocations_witness :
    (World.initial ()).stdout = [] ∧ (World.initial ()).coutBuf = []
      ∧ (runSeq [(1, ["hello"]), (2, ["hello", "--verbose"]), (1, ["hello"])]
            (World.initial ())).1 = [0, 0, 0]
      ∧ (runSeq [(1, ["hello"]), (2, ["hello", "--verbose"]), (1, ["hello"])]
            (World.initial ())).2.stdout = greetingLine ++ greetingLine ++ greetingLine :=
  ⟨rfl, rfl,
    (C7_repeated_invocations [(1, ["hello"]), (2, ["hello", "--verbose"]), (1, ["hello"])]
      1 ["hello"] (World.initial ()) rfl rfl).1,
    (C7_repeated_invocations [(1, ["hello"]), (2, ["hello", "--verbose"]), (1, ["hello"])]
      1 ["hello"] (World.initial ()) rfl rfl).2.1⟩

/-! ## Flushing before the return -/

/-- C8: for every invocation, when control reaches the `return` of line 18 the
buffer of `std::cout` is already empty and standard output already holds what
was there or pending before, followed by the greeting and its newline; the last
stream call made is the flush of `std::cout`; the return itself changes nothing
in the world and produces status 0, so the world `main` returns has nothing
pending. -/
theorem C8_flushed_before_return {ρ : Type} (argc : Int) (argv : List String)
    (w : World ρ) :
    (step (start argc argv w)).pc = .line18
      ∧ (step (start argc argv w)).world.coutBuf = []
      ∧ (step (start argc argv w)).world.stdout = w.stdout ++ (w.coutBuf ++ greetingLine)
      ∧ (step (start argc argv w)).world.log.getLast? = some (.flush .cout)
      ∧ (step (step (start argc argv w))).pc = .exited 0
      ∧ (step (step (start argc argv w))).world = (step (start argc argv w)).world
      ∧ (main argc argv w).2 = (step (start argc argv w)).world
      ∧ (main argc argv w).2.coutBuf = [] := by
  have hs : (step (start argc argv w)).world = (main argc argv w).2 := rfl
  have hr : (step (step (start argc argv w))).world = (step (start argc argv w)).world := rfl
  refine ⟨rfl, ?_, ?_, ?_, rfl, hr, hs.symm, ?_⟩
  · rw [hs, main_eq]
  · rw [hs, main_eq]
  · rw [hs, main_eq]; simp
  · rw [main_eq]

end HelloWorld
